import Mathlib

/-!
Verification of the generic horde API client
(`src/horde_sdk/generic_api/generic_client.py`).

The Python code is shallowly embedded: pydantic request objects become
explicit field lists (attribute name, value), Python `None` becomes the
`none` of an `Option JValue`, raising becomes the `.error` arm of an
`Except`, and the `requests` / `aiohttp` network round trip is abstracted
as an ambient raw reply passed to each verb function.  Classes that the
client imports from modules not present under `src/`
(`RequestErrorResponse`, the `BaseRequest` accessors, the three mappable
request base classes) are modelled from the specification; each such
definition carries a doc comment saying so.
-/

namespace GenericHordeClient

set_option maxHeartbeats 1000000

/-- JSON values, the payloads moved between the client and the API.
Numbers are integers here; no claim depends on float payloads. -/
inductive JValue where
  | null : JValue
  | bool (b : Bool) : JValue
  | num (n : Int) : JValue
  | str (s : String) : JValue
  | arr (xs : List JValue) : JValue
  | obj (kvs : List (String × JValue)) : JValue

/-- Python exceptions that the embedded code can raise. -/
inductive PyError where
  | keyError (k : String)
  | typeError (msg : String)
  | runtimeError (msg : String)
  | attributeError (attrName : String)
  | validationError (msg : String)
deriving DecidableEq

/-- Lookup in a Python dict represented as an association list in
insertion order (Python dict keys are unique, so first match is the
match). -/
def dictLookup {β : Type} : List (String × β) → String → Option β
  | [], _ => none
  | (k, v) :: rest, key => if k = key then some v else dictLookup rest key

/-- Python dict item assignment `d[key] = v`: update the first occurrence
in place, append at the end when the key is absent. -/
def dictSet {β : Type} : List (String × β) → String → β → List (String × β)
  | [], key, v => [(key, v)]
  | (k, w) :: rest, key, v =>
    if k = key then (key, v) :: rest else (k, w) :: dictSet rest key v

/-- Keys of a Python dict, in order. -/
def dictKeys {β : Type} (d : List (String × β)) : List String :=
  d.map Prod.fst

/-- One piece of an endpoint URL template: literal text or a `{name}`
placeholder.  The endpoint strings returned by `get_endpoint_url()` are
kept in parsed form throughout the embedding. -/
inductive TplPart where
  | lit (s : String) : TplPart
  | hole (name : String) : TplPart
deriving DecidableEq

/-- Facts about the request type returned by `get_recovery_request_type()`:
which of the three mappable base classes it is a subclass of.  The
`issubclass` outcomes are recorded directly because the class hierarchy
lives in modules outside `src/`. -/
structure RecoveryTypeInfo where
  isAuth : Bool
  isUser : Bool
  isWorker : Bool
deriving DecidableEq

/-- A `BaseRequest` instance as the client sees it: its `__dict__` (field
name to value, `none` inside the option being Python `None`), the set of
explicitly-set fields (pydantic `__fields_set__`, consulted by
`model_dump(exclude_unset=True)`), and the values of the declared
accessors `get_endpoint_url()`, `get_header_fields()`,
`is_recovery_enabled()` and `get_recovery_request_type()`. -/
structure PyRequest where
  fields : List (String × Option JValue)
  setFields : List String
  endpointTemplate : List TplPart
  extraHeaderKeys : List String
  recoveryEnabled : Bool
  recoveryType : RecoveryTypeInfo

/-- Attribute read with Python `getattr` semantics: raises
`AttributeError` when the name is not a field of the request. -/
def pyGetattr (r : PyRequest) (k : String) : Except PyError (Option JValue) :=
  match dictLookup r.fields k with
  | some v => .ok v
  | none => .error (.attributeError k)

/-- Total attribute read used where the surrounding code has already
established that the field exists. -/
def attrD (r : PyRequest) (k : String) : Option JValue :=
  (dictLookup r.fields k).getD none

/-- Python `str()` on a field value.  Containers are abstracted to fixed
tags (Python renders their full repr); every path parameter the client
substitutes in practice is a scalar, and no claim inspects the rendering
of a container. -/
def pyStr : JValue → String
  | .null => "None"
  | .bool true => "True"
  | .bool false => "False"
  | .num n => toString n
  | .str s => s
  | .arr _ => "[list]"
  | .obj _ => "[dict]"

/-- Python `str()` applied to an optional value (`str(None)` is the text
`None`). -/
def pyStrOpt : Option JValue → String
  | none => "None"
  | some v => pyStr v

/-- The three field-key registries the client holds
(`_header_data_keys`, `_path_data_keys`, `_query_data_keys`), each a
`StrEnum` member map from internal field name to wire name. -/
structure Registries where
  header : List (String × String)
  path : List (String × String)
  query : List (String × String)

/-- The nested helper `get_specified_data_keys` of
`_validate_and_prepare_request`: the registry entries whose internal name
is an attribute of the request with a non-`None` value. -/
def get_specified_data_keys (dataKeys : List (String × String)) (r : PyRequest) :
    List (String × String) :=
  dataKeys.filter (fun kv =>
    match dictLookup r.fields kv.1 with
    | some (some _) => true
    | _ => false)

/-- One `str.format_map` call with the singleton mapping `key ↦ v`: every
`{key}` placeholder becomes the literal `v`; the first placeholder with
any other name raises `KeyError`, exactly as CPython scans the template
left to right. -/
def format_map_single (key v : String) : List TplPart → Except PyError (List TplPart)
  | [] => .ok []
  | .lit s :: rest =>
    match format_map_single key v rest with
    | .ok out => .ok (.lit s :: out)
    | .error e => .error e
  | .hole n :: rest =>
    if n = key then
      match format_map_single key v rest with
      | .ok out => .ok (.lit v :: out)
      | .error e => .error e
    else .error (.keyError n)

/-- The path-substitution loop of `_validate_and_prepare_request`: for
each specified path field, `endpoint_url.format_map({wire: str(value)})`. -/
def substitute_paths (r : PyRequest) :
    List TplPart → List (String × String) → Except PyError (List TplPart)
  | parts, [] => .ok parts
  | parts, (py, api) :: rest =>
    match format_map_single api (pyStrOpt (attrD r py)) parts with
    | .error e => .error e
    | .ok parts2 => substitute_paths r parts2 rest

/-- Trailing-underscore stripping applied to extra header field names
(`request_key[:-1]` when `request_key.endswith("_")`). -/
def stripUnderscore (k : String) : String :=
  if k.data.getLast? = some (Char.ofNat 95) then String.mk k.data.dropLast else k

/-- Mutable locals of the field-classification loop: the (retroactively
extended) header-claimed map and the three output buckets. -/
structure ClassifyAcc where
  specHeaders : List (String × String)
  headers : List (String × Option JValue)
  queries : List (String × Option JValue)
  params : List (String × Option JValue)

/-- One iteration of the classification walk over
`api_request.__dict__.items()`, with the precedence of the source: path
fields are consumed, header-claimed fields go to the headers bucket,
extra header fields go to the headers bucket and are registered
retroactively in the header-claimed map (keyed by their original name,
mapping to the suffix-stripped name), query-claimed fields go to the
queries bucket, everything else lands in the params bucket. -/
def classify_step (specPaths specQueries : List (String × String)) (extra : List String)
    (acc : ClassifyAcc) (kv : String × Option JValue) : ClassifyAcc :=
  if kv.1 ∈ dictKeys specPaths then acc
  else if kv.1 ∈ dictKeys acc.specHeaders then
    { acc with headers := dictSet acc.headers kv.1 kv.2 }
  else if kv.1 ∈ extra then
    { acc with
      specHeaders := dictSet acc.specHeaders kv.1 (stripUnderscore kv.1),
      headers := dictSet acc.headers kv.1 kv.2 }
  else if kv.1 ∈ dictKeys specQueries then
    { acc with queries := dictSet acc.queries kv.1 kv.2 }
  else { acc with params := dictSet acc.params kv.1 kv.2 }

/-- The `_ParsedRequest` pydantic model: endpoint (still in template
form, fully substituted on success), the three buckets, and the optional
body. -/
structure ParsedRequest where
  endpoint_no_query : List TplPart
  request_headers : List (String × Option JValue)
  request_queries : List (String × Option JValue)
  request_params : List (String × Option JValue)
  request_body : Option (List (String × JValue))

/-- The body computation at the end of `_validate_and_prepare_request`:
`model_dump(exclude_none=True, exclude_unset=True, exclude=excluded)`,
then the `== {}` normalisation to `None`. -/
def compute_body (r : PyRequest) (excluded : List String) :
    Option (List (String × JValue)) :=
  let body0 := r.fields.filterMap (fun kv =>
    if kv.1 ∈ excluded then none
    else if kv.1 ∈ r.setFields then kv.2.map (fun v => (kv.1, v))
    else none)
  if body0.isEmpty then none else some body0

/-- `GenericHordeAPIClient._validate_and_prepare_request`: compute the
claimed sets, substitute path placeholders into the endpoint template,
classify every request field into buckets, and build the body from the
unclaimed remainder. -/
def validate_and_prepare_request (regs : Registries) (r : PyRequest) :
    Except PyError ParsedRequest :=
  let specified_headers := get_specified_data_keys regs.header r
  let specified_paths := get_specified_data_keys regs.path r
  let specified_queries := get_specified_data_keys regs.query r
  match substitute_paths r r.endpointTemplate specified_paths with
  | .error e => .error e
  | .ok endpoint_url =>
    let extra := r.extraHeaderKeys
    let acc := r.fields.foldl (classify_step specified_paths specified_queries extra)
      ⟨specified_headers, [], [], []⟩
    let excluded := dictKeys acc.specHeaders ++ dictKeys specified_paths
      ++ dictKeys specified_queries ++ extra
    .ok ⟨endpoint_url, acc.headers, acc.queries, acc.params, compute_body r excluded⟩

/-- A raw HTTP reply as the transport hands it back: status code and the
JSON-decoded body. -/
structure RawResponse where
  status_code : Nat
  body : JValue

/-- A dynamically-typed Python value reaching
`_after_request_handling` as its `raw_response` argument.  The sync verbs
pass the `requests.Response` object; the async verbs pass the already
awaited JSON body (a plain parsed value). -/
inductive PyObj where
  | response (r : RawResponse)
  | jval (v : JValue)

/-- The attribute access `raw_response.json()`: fine on a response
object, `AttributeError` on a plain JSON value (a Python dict or list has
no `json` attribute). -/
def pyJson : PyObj → Except PyError JValue
  | .response r => .ok r.body
  | .jval _ => .error (.attributeError "json")

/-- The attribute access `raw_response.status_code`, same dynamic
behaviour. -/
def pyStatusCode : PyObj → Except PyError Nat
  | .response r => .ok r.status_code
  | .jval _ => .error (.attributeError "status_code")

/-- Python `len()` on a JSON value: length of strings, arrays and
objects; `TypeError` on the unsized types. -/
def pyLen : JValue → Except PyError Nat
  | .str s => .ok s.length
  | .arr xs => .ok xs.length
  | .obj kvs => .ok kvs.length
  | _ => .error (.typeError "object has no len")

/-- Python `==` between a value and a string literal (string equality,
`False` across types), as used by list membership. -/
def pyEqStr (v : JValue) (s : String) : Bool :=
  match v with
  | .str t => t = s
  | _ => false

/-- Substring test on character lists, needle first. -/
def listHasSub (needle : List Char) : List Char → Bool
  | [] => needle.isEmpty
  | c :: rest => needle.isPrefixOf (c :: rest) || listHasSub needle rest

/-- The Python `in` operator applied to a string needle: key membership
on objects, element equality on arrays, substring on strings,
`TypeError` elsewhere. -/
def pyInOp (needle : String) : JValue → Except PyError Bool
  | .str s => .ok (listHasSub needle.data s.data)
  | .arr xs => .ok (xs.any (fun x => pyEqStr x needle))
  | .obj kvs => .ok (kvs.any (fun kv => kv.1 = needle))
  | _ => .error (.typeError "argument is not iterable")

/-- Modelled from the spec: `RequestErrorResponse`, the typed error
variant ("message string + optional diagnostic payload"); the pydantic
class itself lives in `horde_sdk.generic_api.apimodels`, which is not
under `src/`. -/
structure RequestErrorResponse where
  message : JValue
  object_data : Option JValue

/-- Modelled from the spec: constructing a `RequestErrorResponse` from
double-star keyword expansion of the raw body.  Per the spec, a
single-key object keyed `message` always yields an error response built
from it; Python itself raises `TypeError` when the expanded value is not
a mapping, and the model (spec section 3, error variant) requires the
`message` entry. -/
def requestErrorFromKwargs : JValue → Except PyError RequestErrorResponse
  | .obj kvs =>
    match dictLookup kvs "message" with
    | some v => .ok ⟨v, dictLookup kvs "object_data"⟩
    | none => .error (.validationError "message field required")
  | _ => .error (.typeError "argument after a double-star must be a mapping")

/-- The apostrophe character, kept out of string literals. -/
def apos : String := String.singleton (Char.ofNat 39)

/-- The fixed mismatch message of `_after_request_handling`. -/
def mismatchMessage : String :=
  "The response type doesn" ++ apos
    ++ "t match expected one! See `object_data` for the raw response."

/-- The outcome of `_after_request_handling` when it returns: the parsed
success value or a typed error response. -/
inductive HandledResponse (α : Type) where
  | success (v : α)
  | errorResp (e : RequestErrorResponse)

/-- `GenericHordeAPIClient._after_request_handling`, parameterised by the
parser `expected_response_type.from_dict_or_array` (a pydantic
classmethod outside `src/`, abstracted as a fallible function whose
`.error` arm is a raised `ValidationError`) and by the `isinstance`
check against the `expected_response` argument.  The reply object is read
dynamically: first `.json()`, then `.status_code`. -/
def after_request_handling {α : Type} (parse : JValue → Except String α)
    (isExpected : α → Bool) (raw_response : PyObj) :
    Except PyError (HandledResponse α) :=
  match pyJson raw_response with
  | .error e => .error e
  | .ok raw_response_json =>
    match pyStatusCode raw_response with
    | .error e => .error e
    | .ok status =>
      if 400 ≤ status then
        match pyLen raw_response_json with
        | .error e => .error e
        | .ok l =>
          match pyInOp "message" raw_response_json with
          | .error e => .error e
          | .ok c =>
            if l = 1 ∧ c then
              match requestErrorFromKwargs raw_response_json with
              | .error e => .error e
              | .ok er => .ok (.errorResp er)
            else
              .error (.runtimeError
                "Received a non-200 response code, but no `message` key was found in the response")
      else
        match parse raw_response_json with
        | .ok parsed =>
          if isExpected parsed then .ok (.success parsed)
          else .ok (.errorResp ⟨.str mismatchMessage,
            some (.obj [("raw_response", raw_response_json)])⟩)
        | .error e =>
          .ok (.errorResp ⟨.str mismatchMessage,
            some (.obj [("exception", .str e), ("raw_response", raw_response_json)])⟩)

/-- `GenericHordeAPIClient.get`: marshal, reject a non-`None` body
fatally, perform the blocking call (`net` is the ambient reply) and hand
the `requests.Response` object to the resolver. -/
def get_verb {α : Type} (parse : JValue → Except String α) (isExpected : α → Bool)
    (regs : Registries) (r : PyRequest) (net : RawResponse) :
    Except PyError (HandledResponse α) :=
  match validate_and_prepare_request regs r with
  | .error e => .error e
  | .ok parsed =>
    match parsed.request_body with
    | some _ => .error (.runtimeError
        "GET requests cannot have a body! This probably means you forgot to override `get_header_fields()`")
    | none => after_request_handling parse isExpected (.response net)

/-- `GenericHordeAPIClient.async_get`: same marshalling and body check,
but the resolver receives the awaited JSON body instead of the response
object. -/
def async_get_verb {α : Type} (parse : JValue → Except String α) (isExpected : α → Bool)
    (regs : Registries) (r : PyRequest) (net : RawResponse) :
    Except PyError (HandledResponse α) :=
  match validate_and_prepare_request regs r with
  | .error e => .error e
  | .ok parsed =>
    match parsed.request_body with
    | some _ => .error (.runtimeError "GET requests cannot have a body!")
    | none => after_request_handling parse isExpected (.jval net.body)

/-- `GenericHordeAPIClient.post` (the body, when present, rides along as
the wire payload inside the ambient exchange). -/
def post_verb {α : Type} (parse : JValue → Except String α) (isExpected : α → Bool)
    (regs : Registries) (r : PyRequest) (net : RawResponse) :
    Except PyError (HandledResponse α) :=
  match validate_and_prepare_request regs r with
  | .error e => .error e
  | .ok _ => after_request_handling parse isExpected (.response net)

/-- `GenericHordeAPIClient.async_post`. -/
def async_post_verb {α : Type} (parse : JValue → Except String α) (isExpected : α → Bool)
    (regs : Registries) (r : PyRequest) (net : RawResponse) :
    Except PyError (HandledResponse α) :=
  match validate_and_prepare_request regs r with
  | .error e => .error e
  | .ok _ => after_request_handling parse isExpected (.jval net.body)

/-- `GenericHordeAPIClient.put`. -/
def put_verb {α : Type} (parse : JValue → Except String α) (isExpected : α → Bool)
    (regs : Registries) (r : PyRequest) (net : RawResponse) :
    Except PyError (HandledResponse α) :=
  match validate_and_prepare_request regs r with
  | .error e => .error e
  | .ok _ => after_request_handling parse isExpected (.response net)

/-- `GenericHordeAPIClient.async_put`. -/
def async_put_verb {α : Type} (parse : JValue → Except String α) (isExpected : α → Bool)
    (regs : Registries) (r : PyRequest) (net : RawResponse) :
    Except PyError (HandledResponse α) :=
  match validate_and_prepare_request regs r with
  | .error e => .error e
  | .ok _ => after_request_handling parse isExpected (.jval net.body)

/-- `GenericHordeAPIClient.patch`. -/
def patch_verb {α : Type} (parse : JValue → Except String α) (isExpected : α → Bool)
    (regs : Registries) (r : PyRequest) (net : RawResponse) :
    Except PyError (HandledResponse α) :=
  match validate_and_prepare_request regs r with
  | .error e => .error e
  | .ok _ => after_request_handling parse isExpected (.response net)

/-- `GenericHordeAPIClient.async_patch`. -/
def async_patch_verb {α : Type} (parse : JValue → Except String α) (isExpected : α → Bool)
    (regs : Registries) (r : PyRequest) (net : RawResponse) :
    Except PyError (HandledResponse α) :=
  match validate_and_prepare_request regs r with
  | .error e => .error e
  | .ok _ => after_request_handling parse isExpected (.jval net.body)

/-- `GenericHordeAPIClient.delete`. -/
def delete_verb {α : Type} (parse : JValue → Except String α) (isExpected : α → Bool)
    (regs : Registries) (r : PyRequest) (net : RawResponse) :
    Except PyError (HandledResponse α) :=
  match validate_and_prepare_request regs r with
  | .error e => .error e
  | .ok _ => after_request_handling parse isExpected (.response net)

/-- `GenericHordeAPIClient.async_delete`. -/
def async_delete_verb {α : Type} (parse : JValue → Except String α) (isExpected : α → Bool)
    (regs : Registries) (r : PyRequest) (net : RawResponse) :
    Except PyError (HandledResponse α) :=
  match validate_and_prepare_request regs r with
  | .error e => .error e
  | .ok _ => after_request_handling parse isExpected (.jval net.body)

/-- The marshaller with the client and request state threaded explicitly.
Every assignment inside `_validate_and_prepare_request` targets a
function-local dict (`specified_headers`, the bucket dicts), never
`self` or `api_request`, so the state component is returned unchanged. -/
def validate_and_prepare_request_st (st : Registries × PyRequest) :
    Except PyError ParsedRequest × (Registries × PyRequest) :=
  (validate_and_prepare_request st.1 st.2, st)

/-- Modelled from the spec: the `model_fields` of the three mappable
request base classes (`BaseRequestAuthenticated`,
`BaseRequestUserSpecific`, `BaseRequestWorkerDriven`), which live in
`horde_sdk.generic_api.apimodels`, not under `src/`.  The spec names the
groups authentication, user-identity and worker-identity; field lists
are abstract parameters of every theorem that uses them. -/
structure RecoveryGroups where
  auth : List String
  user : List String
  worker : List String

/-- Modelled from the spec: a concrete instantiation of the three group
schemas used for concrete evaluations — the authentication group carries
the `apikey` field (spec Scenario A routes `apikey`), the identity
groups carry an id field each. -/
def recoveryGroupsModel : RecoveryGroups := ⟨["apikey"], ["user_id"], ["worker_id"]⟩

/-- The inner copying loop of `HordeRequestHandler.__exit__`:
`request_params[key] = getattr(self.request, key)` for every key of one
group schema, with `getattr` raising on absent fields. -/
def copyGroupFields (r : PyRequest) :
    List (String × Option JValue) → List String →
    Except PyError (List (String × Option JValue))
  | params, [] => .ok params
  | params, k :: rest =>
    match pyGetattr r k with
    | .error e => .error e
    | .ok v => copyGroupFields r (dictSet params k v) rest

/-- The recovery-parameter construction of `HordeRequestHandler.__exit__`:
for each of the three mappable base types that the recovery request type
subclasses, copy that group's fields from the original request. -/
def buildRecoveryParams (groups : RecoveryGroups) (rt : RecoveryTypeInfo)
    (r : PyRequest) : Except PyError (List (String × Option JValue)) :=
  match (if rt.isAuth then copyGroupFields r [] groups.auth else .ok []) with
  | .error e => .error e
  | .ok p1 =>
    match (if rt.isUser then copyGroupFields r p1 groups.user else .ok p1) with
    | .error e => .error e
    | .ok p2 =>
      if rt.isWorker then copyGroupFields r p2 groups.worker else .ok p2

/-- The fields of the groups the recovery type structurally satisfies,
in the order the exit hook visits them. -/
def satisfiedFields (groups : RecoveryGroups) (rt : RecoveryTypeInfo) : List String :=
  (if rt.isAuth then groups.auth else [])
    ++ (if rt.isUser then groups.user else [])
    ++ (if rt.isWorker then groups.worker else [])

/-- `HordeRequestHandler`: holds only the wrapped request (the `response`
annotation on the class is never assigned). -/
structure HordeRequestHandler where
  request : PyRequest

/-- `HordeRequestHandler.__exit__`, with `excType` the in-flight
exception type (`none` on normal completion).  The Python method always
falls off the end (or hits a bare `return`), so on every returning path
the result value is Python `None` (modelled as the `none` of
`Option JValue`) and the handler is handed back unchanged; the computed
recovery-parameter map is dropped on the floor.  The diagnostic `print`
is not modelled. -/
def handler_exit (groups : RecoveryGroups) (h : HordeRequestHandler)
    (excType : Option String) :
    Except PyError (HordeRequestHandler × Option JValue) :=
  match excType with
  | none => .ok (h, none)
  | some _ =>
    if ¬ h.request.recoveryEnabled then .ok (h, none)
    else
      match buildRecoveryParams groups h.request.recoveryType h.request with
      | .error e => .error e
      | .ok _ => .ok (h, none)

/-- The body of the parsed request as the claim words it: the
explicitly-set, non-null fields minus every name claimed by the header,
path or query registries or listed as an extra header field — with the
header-claimed set taken from the registries alone, before any
retroactive extra-header registration. -/
def body_per_claim (regs : Registries) (r : PyRequest) :
    Option (List (String × JValue)) :=
  let claimed := dictKeys (get_specified_data_keys regs.header r)
    ++ dictKeys (get_specified_data_keys regs.path r)
    ++ dictKeys (get_specified_data_keys regs.query r)
    ++ r.extraHeaderKeys
  compute_body r claimed

/-- Registries with no entries, for requests whose fields are all body
payload. -/
def emptyRegs : Registries := ⟨[], [], []⟩

/-- A request with no fields at all (every bucket empty, body absent). -/
def emptyReq : PyRequest := ⟨[], [], [TplPart.lit "/v2/status"], [], false, ⟨false, false, false⟩⟩

/-- A successful reply with an empty JSON object body. -/
def okNet : RawResponse := ⟨200, JValue.obj []⟩

/-- Scenario E of the spec: the path registry claims `id`, the endpoint
template carries the `{id}` placeholder, and the request holds
`id = None`. -/
def scenarioERegs : Registries := ⟨[], [("id", "id")], []⟩

/-- The request of Scenario E. -/
def scenarioEReq : PyRequest :=
  ⟨[("id", none)], [], [TplPart.hole "id"], [], false, ⟨false, false, false⟩⟩

/-- A request with one specified path field whose wire name does not
match the placeholder in the template. -/
def mismatchedHoleRegs : Registries := ⟨[], [("pid", "id")], []⟩

/-- The request paired with `mismatchedHoleRegs`. -/
def mismatchedHoleReq : PyRequest :=
  ⟨[("pid", some (.str "7"))], ["pid"], [TplPart.hole "bad"], [], false, ⟨false, false, false⟩⟩

/-- A request declaring `apikey_` (reserved-word-avoiding suffix) as an
extra header field. -/
def suffixedHeaderReq : PyRequest :=
  ⟨[("apikey_", some (.str "secret")), ("prompt", some (.str "a"))],
    ["apikey_", "prompt"], [TplPart.lit "/v2/generate/async"], ["apikey_"],
    false, ⟨false, false, false⟩⟩

/-- A request exercising every bucket: a header field, a path field, a
query field, a body field and a suffixed extra header field. -/
def fullRegs : Registries :=
  ⟨[("apikey", "apikey")], [("id", "id")], [("limit", "limit")]⟩

/-- The request paired with `fullRegs`. -/
def fullReq : PyRequest :=
  ⟨[("apikey", some (.str "k")), ("id", some (.str "123")),
    ("limit", some (.num 5)), ("prompt", some (.str "cat")),
    ("client_agent_", some (.str "ua"))],
    ["apikey", "id", "limit", "prompt", "client_agent_"],
    [TplPart.lit "/v2/thing/", TplPart.hole "id"], ["client_agent_"],
    false, ⟨false, false, false⟩⟩

/-- The parsed request that marshalling `fullReq` produces. -/
def fullParsed : ParsedRequest :=
  ⟨[TplPart.lit "/v2/thing/", TplPart.lit "123"],
    [("apikey", some (JValue.str "k")), ("client_agent_", some (JValue.str "ua"))],
    [("limit", some (JValue.num 5))],
    [("prompt", some (JValue.str "cat"))],
    some [("prompt", JValue.str "cat")]⟩

/-- A body-carrying request (one unclaimed field). -/
def bodyReq : PyRequest :=
  ⟨[("prompt", some (.str "a"))], ["prompt"], [TplPart.lit "/v2/x"], [],
    false, ⟨false, false, false⟩⟩

/-- The parsed request that marshalling `bodyReq` produces. -/
def bodyParsed : ParsedRequest :=
  ⟨[TplPart.lit "/v2/x"], [], [], [("prompt", some (JValue.str "a"))],
    some [("prompt", JValue.str "a")]⟩

/-- A recovery-enabled request whose recovery type satisfies the
authentication group but which itself has no `apikey` field. -/
def noApikeyReq : PyRequest :=
  ⟨[("prompt", some (.str "x"))], ["prompt"], [TplPart.lit "/v2/generate/async"], [],
    true, ⟨true, false, false⟩⟩

/-- A request carrying every field of the satisfied groups
(authentication and user-identity). -/
def recoverableReq : PyRequest :=
  ⟨[("apikey", some (.str "k")), ("user_id", some (.str "u")), ("prompt", some (.str "p"))],
    ["apikey", "user_id", "prompt"], [TplPart.lit "/v2/generate/async"], [],
    true, ⟨true, true, false⟩⟩

/-! Helper lemmas about the Python dict model. -/

theorem dictLookup_dictSet {β : Type} (d : List (String × β)) (key k : String) (v : β) :
    dictLookup (dictSet d key v) k = if k = key then some v else dictLookup d k := by
  induction d with
  | nil =>
    by_cases h : k = key
    · simp [dictSet, dictLookup, h]
    · have h' : ¬ key = k := fun he => h he.symm
      simp [dictSet, dictLookup, h, h']
  | cons hd tl ih =>
    obtain ⟨k0, w⟩ := hd
    by_cases h0 : k0 = key
    · by_cases h : k = key
      · subst h
        simp [dictSet, dictLookup, h0]
      · subst h0
        simp [dictSet, dictLookup, h, show ¬ k0 = k from fun he => h he.symm]
    · by_cases h1 : k0 = k
      · subst h1
        simp [dictSet, dictLookup, h0]
      · simp [dictSet, dictLookup, h0, h1, ih]

theorem mem_dictKeys_dictSet {β : Type} (d : List (String × β)) (key k : String) (v : β) :
    k ∈ dictKeys (dictSet d key v) ↔ k = key ∨ k ∈ dictKeys d := by
  induction d with
  | nil => simp [dictSet, dictKeys]
  | cons hd tl ih =>
    obtain ⟨k0, w⟩ := hd
    simp only [dictKeys] at ih ⊢
    by_cases h0 : k0 = key
    · subst h0
      simp [dictSet]
    · simp only [dictSet, if_neg h0, List.map_cons, List.mem_cons, ih]
      tauto

/-! Helper lemmas about the classification fold: the header-claimed map
only ever grows, and it grows only by extra-header names. -/

theorem classify_specHeaders_mono (specPaths specQueries : List (String × String))
    (extra : List String) (fields : List (String × Option JValue)) (acc : ClassifyAcc)
    (k : String) (h : k ∈ dictKeys acc.specHeaders) :
    k ∈ dictKeys (fields.foldl (classify_step specPaths specQueries extra) acc).specHeaders := by
  induction fields generalizing acc with
  | nil => exact h
  | cons f fs ih =>
    refine ih (classify_step specPaths specQueries extra acc f) ?_
    unfold classify_step
    split_ifs <;> simp_all [mem_dictKeys_dictSet]

theorem classify_specHeaders_bound (specPaths specQueries : List (String × String))
    (extra : List String) (fields : List (String × Option JValue)) (acc : ClassifyAcc)
    (k : String)
    (h : k ∈ dictKeys (fields.foldl (classify_step specPaths specQueries extra) acc).specHeaders) :
    k ∈ dictKeys acc.specHeaders ∨ k ∈ extra := by
  induction fields generalizing acc with
  | nil => exact Or.inl h
  | cons f fs ih =>
    rcases ih (classify_step specPaths specQueries extra acc f) h with h' | h'
    · unfold classify_step at h'
      split_ifs at h' with h1 h2 h3 h4
      · exact Or.inl h'
      · exact Or.inl h'
      · rcases (mem_dictKeys_dictSet _ _ _ _).1 h' with rfl | hm
        · exact Or.inr h3
        · exact Or.inl hm
      · exact Or.inl h'
      · exact Or.inl h'
    · exact Or.inr h'

/-! Helper lemmas about substring search and placeholder substitution. -/

theorem isPrefixOf_length_le (l1 l2 : List Char) (h : l1.isPrefixOf l2 = true) :
    l1.length ≤ l2.length := by
  induction l1 generalizing l2 with
  | nil => simp
  | cons a as ih =>
    cases l2 with
    | nil => simp [List.isPrefixOf] at h
    | cons b bs =>
      simp only [List.isPrefixOf, Bool.and_eq_true] at h
      simpa using ih bs h.2

theorem listHasSub_length_le (n h : List Char) (hs : listHasSub n h = true) :
    n.length ≤ h.length := by
  induction h with
  | nil =>
    simp only [listHasSub, List.isEmpty_iff] at hs
    simp [hs]
  | cons c rest ih =>
    simp only [listHasSub, Bool.or_eq_true] at hs
    rcases hs with hs | hs
    · exact isPrefixOf_length_le _ _ hs
    · exact le_trans (ih hs) (by simp)

theorem format_map_single_err (key v : String) (parts : List TplPart) (x : String)
    (hx : TplPart.hole x ∈ parts) (hne : x ≠ key) :
    ∃ m, format_map_single key v parts = .error (.keyError m) := by
  induction parts with
  | nil => simp at hx
  | cons p rest ih =>
    cases p with
    | lit s =>
      have hx' : TplPart.hole x ∈ rest := by
        rcases List.mem_cons.1 hx with h | h
        · exact absurd h (by simp)
        · exact h
      obtain ⟨m, hm⟩ := ih hx'
      exact ⟨m, by simp [format_map_single, hm]⟩
    | hole n =>
      by_cases hn : n = key
      · subst hn
        have hx' : TplPart.hole x ∈ rest := by
          rcases List.mem_cons.1 hx with h | h
          · exact absurd (by injection h) hne
          · exact h
        obtain ⟨m, hm⟩ := ih hx'
        exact ⟨m, by simp [format_map_single, hm]⟩
      · exact ⟨n, by simp [format_map_single, hn]⟩

theorem substitute_paths_err (r : PyRequest) (parts : List TplPart)
    (py api : String) (rest : List (String × String)) (x : String)
    (hx : TplPart.hole x ∈ parts) (hne : x ≠ api) :
    ∃ m, substitute_paths r parts ((py, api) :: rest) = .error (.keyError m) := by
  obtain ⟨m, hm⟩ := format_map_single_err api (pyStrOpt (attrD r py)) parts x hx hne
  exact ⟨m, by simp [substitute_paths, hm]⟩

/-! Helper lemmas about the recovery-parameter copying loop. -/

theorem copyGroupFields_ok (r : PyRequest) (g : List String)
    (ps : List (String × Option JValue))
    (h : ∀ k ∈ g, (dictLookup r.fields k).isSome) :
    ∃ m, copyGroupFields r ps g = .ok m ∧
      ∀ k, dictLookup m k = if k ∈ g then some (attrD r k) else dictLookup ps k := by
  induction g generalizing ps with
  | nil => exact ⟨ps, rfl, by simp⟩
  | cons f fs ih =>
    have hf : (dictLookup r.fields f).isSome := h f (by simp)
    have hget : pyGetattr r f = .ok (attrD r f) := by
      unfold pyGetattr attrD
      cases hh : dictLookup r.fields f
      · rw [hh] at hf
        simp at hf
      · simp [hh]
    obtain ⟨m, hm, hl⟩ := ih (dictSet ps f (attrD r f)) (fun k hk => h k (by simp [hk]))
    refine ⟨m, by simp [copyGroupFields, hget, hm], fun k => ?_⟩
    rw [hl k, dictLookup_dictSet]
    by_cases hk : k ∈ fs
    · simp [hk]
    · by_cases hkf : k = f
      · simp [hk, hkf]
      · simp [hk, hkf]

theorem copyGroupFields_if_ok (r : PyRequest) (cond : Bool) (g : List String)
    (ps : List (String × Option JValue))
    (h : ∀ k ∈ (if cond then g else []), (dictLookup r.fields k).isSome) :
    ∃ m, (if cond then copyGroupFields r ps g else .ok ps) = .ok m ∧
      ∀ k, dictLookup m k =
        if k ∈ (if cond then g else []) then some (attrD r k) else dictLookup ps k := by
  cases cond
  · exact ⟨ps, by simp, by simp⟩
  · simpa using copyGroupFields_ok r g ps (by simpa using h)

/-! Claim theorems. -/

/-- Claim C1 (code bug): the sync and async verb variants do not perform
identical response handling.  At one and the same marshalled request and
one and the same 200-status raw reply, every sync verb resolves to the
typed success value, while every async verb raises `AttributeError`,
because it feeds the awaited JSON body (not the response object) into
`_after_request_handling`, which immediately calls `.json()` on it. -/
theorem async_variants_diverge_from_sync :
    (get_verb (fun _ => Except.ok ()) (fun _ => true) emptyRegs emptyReq okNet
        = .ok (.success ())
      ∧ async_get_verb (fun _ => Except.ok ()) (fun _ => true) emptyRegs emptyReq okNet
        = .error (.attributeError "json"))
    ∧ (post_verb (fun _ => Except.ok ()) (fun _ => true) emptyRegs emptyReq okNet
        = .ok (.success ())
      ∧ async_post_verb (fun _ => Except.ok ()) (fun _ => true) emptyRegs emptyReq okNet
        = .error (.attributeError "json"))
    ∧ (put_verb (fun _ => Except.ok ()) (fun _ => true) emptyRegs emptyReq okNet
        = .ok (.success ())
      ∧ async_put_verb (fun _ => Except.ok ()) (fun _ => true) emptyRegs emptyReq okNet
        = .error (.attributeError "json"))
    ∧ (patch_verb (fun _ => Except.ok ()) (fun _ => true) emptyRegs emptyReq okNet
        = .ok (.success ())
      ∧ async_patch_verb (fun _ => Except.ok ()) (fun _ => true) emptyRegs emptyReq okNet
        = .error (.attributeError "json"))
    ∧ (delete_verb (fun _ => Except.ok ()) (fun _ => true) emptyRegs emptyReq okNet
        = .ok (.success ())
      ∧ async_delete_verb (fun _ => Except.ok ()) (fun _ => true) emptyRegs emptyReq okNet
        = .error (.attributeError "json")) :=
  ⟨⟨rfl, rfl⟩, ⟨rfl, rfl⟩, ⟨rfl, rfl⟩, ⟨rfl, rfl⟩, ⟨rfl, rfl⟩⟩

/-- Claim C2 (counterexample): in Scenario E — a path field `id` claimed
by the registry, the `\x7bid\x7d` placeholder in the template, and no value
supplied for `id` — marshalling does NOT fail: it succeeds, leaving the
placeholder unsubstituted, and the subsequent GET proceeds to the network
and resolves the reply. -/
theorem unfilled_placeholder_marshals_successfully :
    validate_and_prepare_request scenarioERegs scenarioEReq
      = .ok ⟨[TplPart.hole "id"], [], [], [("id", none)], none⟩
    ∧ get_verb (fun _ => Except.ok ()) (fun _ => true) scenarioERegs scenarioEReq okNet
      = .ok (.success ()) :=
  ⟨rfl, rfl⟩

/-- Claim C2 (amended): marshalling fails with a `KeyError` when a
template placeholder has no matching path-claimed field, provided at
least one path-claimed field is specified; with no specified path field
the substitution loop never runs, the placeholder survives, and the
request goes out unchanged. -/
theorem keyerror_when_some_path_field_specified (regs : Registries) (r : PyRequest)
    (n : String)
    (h1 : get_specified_data_keys regs.path r ≠ [])
    (h2 : TplPart.hole n ∈ r.endpointTemplate)
    (h3 : n ∉ (get_specified_data_keys regs.path r).map Prod.snd) :
    ∃ m, validate_and_prepare_request regs r = .error (.keyError m) := by
  rcases hp : get_specified_data_keys regs.path r with _ | ⟨⟨py, api⟩, rest⟩
  · exact absurd hp h1
  · have hne : n ≠ api := by
      intro he
      apply h3
      rw [hp, he]
      simp
    obtain ⟨m, hm⟩ := substitute_paths_err r r.endpointTemplate py api rest n h2 hne
    refine ⟨m, ?_⟩
    simp only [validate_and_prepare_request]
    rw [hp, hm]

/-- Claim C2 (witness for the amended statement), at the concrete
mismatched-placeholder request. -/
theorem keyerror_witness :
    get_specified_data_keys mismatchedHoleRegs.path mismatchedHoleReq ≠ []
    ∧ TplPart.hole "bad" ∈ mismatchedHoleReq.endpointTemplate
    ∧ "bad" ∉ (get_specified_data_keys mismatchedHoleRegs.path mismatchedHoleReq).map Prod.snd
    ∧ ∃ m, validate_and_prepare_request mismatchedHoleRegs mismatchedHoleReq
        = .error (.keyError m) :=
  ⟨by decide, by decide, by decide,
    keyerror_when_some_path_field_specified mismatchedHoleRegs mismatchedHoleReq "bad"
      (by decide) (by decide) (by decide)⟩

/-- Claim C3: a GET (sync or async) whose marshalled request carries a
non-null body raises a fatal `RuntimeError` whose outcome is independent
of any reply — no typed error response, and the failure does not depend
on the network exchange. -/
theorem get_with_body_fails_fatally_before_network {α : Type}
    (parse : JValue → Except String α) (isExp : α → Bool) (regs : Registries)
    (r : PyRequest) (p : ParsedRequest) (b : List (String × JValue))
    (h1 : validate_and_prepare_request regs r = .ok p)
    (h2 : p.request_body = some b) (net : RawResponse) :
    get_verb parse isExp regs r net = .error (.runtimeError
      "GET requests cannot have a body! This probably means you forgot to override `get_header_fields()`")
    ∧ async_get_verb parse isExp regs r net
      = .error (.runtimeError "GET requests cannot have a body!") := by
  constructor
  · simp [get_verb, h1, h2]
  · simp [async_get_verb, h1, h2]

/-- Claim C3 (witness) at a concrete body-carrying request. -/
theorem get_with_body_witness :
    validate_and_prepare_request emptyRegs bodyReq = .ok bodyParsed
    ∧ bodyParsed.request_body = some [("prompt", JValue.str "a")]
    ∧ get_verb (fun _ => Except.ok ()) (fun _ => true) emptyRegs bodyReq okNet
      = .error (.runtimeError
        "GET requests cannot have a body! This probably means you forgot to override `get_header_fields()`")
    ∧ async_get_verb (fun _ => Except.ok ()) (fun _ => true) emptyRegs bodyReq okNet
      = .error (.runtimeError "GET requests cannot have a body!") :=
  ⟨rfl, rfl,
    (get_with_body_fails_fatally_before_network (fun _ => Except.ok ()) (fun _ => true)
      emptyRegs bodyReq bodyParsed [("prompt", JValue.str "a")] rfl rfl okNet).1,
    (get_with_body_fails_fatally_before_network (fun _ => Except.ok ()) (fun _ => true)
      emptyRegs bodyReq bodyParsed [("prompt", JValue.str "a")] rfl rfl okNet).2⟩

/-- Claim C6 (code bug): for an extra header field named with a trailing
underscore, the stripped name is computed (`stripUnderscore` yields
`apikey`) but the headers bucket of the parsed request keys the value
under the original suffixed name `apikey_`; the stripped wire name goes
into a mapping whose values are never read again. -/
theorem extra_header_bucket_keeps_suffix :
    validate_and_prepare_request emptyRegs suffixedHeaderReq
      = .ok ⟨[TplPart.lit "/v2/generate/async"],
          [("apikey_", some (JValue.str "secret"))], [],
          [("prompt", some (JValue.str "a"))], some [("prompt", JValue.str "a")]⟩
    ∧ stripUnderscore "apikey_" = "apikey" :=
  ⟨rfl, rfl⟩

/-- Claim C9 (counterexample): when the recovery type satisfies the
authentication group but the original request has no `apikey` field, the
copying loop raises `AttributeError` instead of skipping the absent
field. -/
theorem missing_group_field_raises_not_skips :
    buildRecoveryParams recoveryGroupsModel noApikeyReq.recoveryType noApikeyReq
      = .error (.attributeError "apikey") :=
  rfl

/-- Claim C9 (amended): when every field of every satisfied group exists
on the original request, the recovery-parameter map holds exactly those
fields, each copied from the original request; an absent field makes the
loop raise instead of being skipped. -/
theorem recovery_params_copy_when_all_present (groups : RecoveryGroups)
    (rt : RecoveryTypeInfo) (r : PyRequest)
    (h : ∀ k ∈ satisfiedFields groups rt, (dictLookup r.fields k).isSome) :
    ∃ m, buildRecoveryParams groups rt r = .ok m ∧
      ∀ k, dictLookup m k =
        if k ∈ satisfiedFields groups rt then some (attrD r k) else none := by
  have hA : ∀ k ∈ (if rt.isAuth then groups.auth else []),
      (dictLookup r.fields k).isSome := by
    intro k hk
    refine h k ?_
    simp only [satisfiedFields, List.mem_append]
    tauto
  have hU : ∀ k ∈ (if rt.isUser then groups.user else []),
      (dictLookup r.fields k).isSome := by
    intro k hk
    refine h k ?_
    simp only [satisfiedFields, List.mem_append]
    tauto
  have hW : ∀ k ∈ (if rt.isWorker then groups.worker else []),
      (dictLookup r.fields k).isSome := by
    intro k hk
    refine h k ?_
    simp only [satisfiedFields, List.mem_append]
    tauto
  obtain ⟨p1, h1, l1⟩ := copyGroupFields_if_ok r rt.isAuth groups.auth [] hA
  obtain ⟨p2, h2, l2⟩ := copyGroupFields_if_ok r rt.isUser groups.user p1 hU
  obtain ⟨m3, h3, l3⟩ := copyGroupFields_if_ok r rt.isWorker groups.worker p2 hW
  refine ⟨m3, ?_, fun k => ?_⟩
  · simp only [buildRecoveryParams, h1, h2]
    exact h3
  · rw [l3 k, l2 k, l1 k]
    simp only [satisfiedFields, List.mem_append, dictLookup]
    split_ifs <;> tauto

/-- Claim C9 (witness for the amended statement), at a request carrying
every field of the satisfied authentication and user-identity groups. -/
theorem recovery_params_witness :
    (∀ k ∈ satisfiedFields recoveryGroupsModel recoverableReq.recoveryType,
      (dictLookup recoverableReq.fields k).isSome)
    ∧ ∃ m, buildRecoveryParams recoveryGroupsModel recoverableReq.recoveryType recoverableReq
        = .ok m ∧
      ∀ k, dictLookup m k =
        if k ∈ satisfiedFields recoveryGroupsModel recoverableReq.recoveryType
        then some (attrD recoverableReq k) else none :=
  ⟨by decide,
    recovery_params_copy_when_all_present recoveryGroupsModel recoverableReq.recoveryType
      recoverableReq (by decide)⟩

/-- Claim C10 (counterexample): the exit hook does not always return a
falsy value — on a failure exit with recovery enabled and a mapped field
absent from the original request, it raises `AttributeError`, replacing
the in-flight exception instead of letting it propagate unchanged. -/
theorem exit_hook_can_raise :
    handler_exit recoveryGroupsModel ⟨noApikeyReq⟩ (some "RuntimeError")
      = .error (.attributeError "apikey") :=
  rfl

/-- Claim C10 (amended): on every path on which the exit hook returns at
all, it returns Python `None` (falsy, so the in-flight exception is not
suppressed) and the handler is handed back unchanged; the computed
recovery-parameter map is neither stored nor returned. -/
theorem exit_hook_returns_none_whenever_it_returns (groups : RecoveryGroups)
    (h : HordeRequestHandler) (excType : Option String)
    (res : HordeRequestHandler × Option JValue)
    (hres : handler_exit groups h excType = .ok res) :
    res = (h, none) := by
  cases excType with
  | none =>
    simp only [handler_exit] at hres
    injection hres with h'
    exact h'.symm
  | some s =>
    simp only [handler_exit] at hres
    by_cases he : h.request.recoveryEnabled
    · rw [if_neg (by simpa using he)] at hres
      cases hb : buildRecoveryParams groups h.request.recoveryType h.request with
      | error e =>
        rw [hb] at hres
        exact absurd hres (by simp)
      | ok m =>
        rw [hb] at hres
        injection hres with h'
        exact h'.symm
    · rw [if_pos (by simpa using he)] at hres
      injection hres with h'
      exact h'.symm

/-- Claim C10 (witness for the amended statement): a returning exit (no
recovery enabled) hands back the unchanged handler and `None`. -/
theorem exit_hook_witness :
    handler_exit recoveryGroupsModel ⟨emptyReq⟩ (some "boom")
      = .ok (⟨emptyReq⟩, none)
    ∧ ((⟨emptyReq⟩, none) : HordeRequestHandler × Option JValue) = (⟨emptyReq⟩, none) :=
  ⟨rfl,
    exit_hook_returns_none_whenever_it_returns recoveryGroupsModel ⟨emptyReq⟩ (some "boom")
      (⟨emptyReq⟩, none) rfl⟩

/-- Claim C5: at a success status code, a validation failure of the body
parser, or a parsed value whose runtime type fails the `isinstance`
check, yields a returned (never raised) typed error response carrying the
fixed mismatch message, the raw body, and — in the validation case — the
diagnostic. -/
theorem success_status_mismatch_returns_error_response {α : Type}
    (parse : JValue → Except String α) (isExp : α → Bool) (raw : RawResponse)
    (h : raw.status_code < 400) :
    (∀ e, parse raw.body = .error e →
      after_request_handling parse isExp (.response raw)
        = .ok (.errorResp ⟨.str mismatchMessage,
            some (.obj [("exception", .str e), ("raw_response", raw.body)])⟩))
    ∧ (∀ v, parse raw.body = .ok v → isExp v = false →
      after_request_handling parse isExp (.response raw)
        = .ok (.errorResp ⟨.str mismatchMessage,
            some (.obj [("raw_response", raw.body)])⟩)) := by
  have hlt : ¬ 400 ≤ raw.status_code := by omega
  constructor
  · intro e he
    simp [after_request_handling, pyJson, pyStatusCode, hlt, he]
  · intro v hv hexp
    simp [after_request_handling, pyJson, pyStatusCode, hlt, hv, hexp]

/-- Claim C5 (witness), at a 200 reply: one arm per failure mode. -/
theorem success_status_mismatch_witness :
    okNet.status_code < 400
    ∧ after_request_handling (fun _ => (Except.error "boom" : Except String Unit))
        (fun _ => true) (.response okNet)
      = .ok (.errorResp ⟨.str mismatchMessage,
          some (.obj [("exception", .str "boom"), ("raw_response", okNet.body)])⟩)
    ∧ after_request_handling (fun _ => (Except.ok () : Except String Unit))
        (fun _ => false) (.response okNet)
      = .ok (.errorResp ⟨.str mismatchMessage,
          some (.obj [("raw_response", okNet.body)])⟩) :=
  ⟨by decide,
    (success_status_mismatch_returns_error_response (fun _ => Except.error "boom")
      (fun _ => true) okNet (by decide)).1 "boom" rfl,
    (success_status_mismatch_returns_error_response (fun _ => Except.ok ())
      (fun _ => false) okNet (by decide)).2 () rfl rfl⟩

/-- Claim C4: at a failure status code, the resolver returns a typed
error response built from the body exactly when the body is a single-key
JSON object whose only key is `message`; every other body shape makes it
raise instead of returning a value. -/
theorem error_response_iff_single_message_key {α : Type}
    (parse : JValue → Except String α) (isExp : α → Bool) (raw : RawResponse)
    (h : 400 ≤ raw.status_code) :
    (∀ v, raw.body = JValue.obj [("message", v)] →
      after_request_handling parse isExp (.response raw)
        = .ok (.errorResp ⟨v, none⟩))
    ∧ ((∀ v, raw.body ≠ JValue.obj [("message", v)]) →
      ∃ e, after_request_handling parse isExp (.response raw) = .error e) := by
  obtain ⟨sc, body⟩ := raw
  constructor
  · intro v hv
    simp only at hv
    subst hv
    simp [after_request_handling, pyJson, pyStatusCode, h, pyLen, pyInOp,
      requestErrorFromKwargs, dictLookup]
  · intro hne
    simp only [after_request_handling, pyJson, pyStatusCode]
    rw [if_pos h]
    cases body with
    | null => exact ⟨.typeError "object has no len", by simp [pyLen]⟩
    | bool b => exact ⟨.typeError "object has no len", by simp [pyLen]⟩
    | num n => exact ⟨.typeError "object has no len", by simp [pyLen]⟩
    | str s =>
      simp only [pyLen, pyInOp]
      by_cases hc : s.length = 1 ∧ listHasSub "message".data s.data = true
      · exfalso
        have h7 : ("message".data.length : Nat) = 7 := by decide
        have hlen : s.length = s.data.length := rfl
        have := listHasSub_length_le "message".data s.data hc.2
        omega
      · exact ⟨.runtimeError
          "Received a non-200 response code, but no `message` key was found in the response",
          by rw [if_neg hc]⟩
    | arr xs =>
      simp only [pyLen, pyInOp]
      by_cases hc : xs.length = 1 ∧ xs.any (fun x => pyEqStr x "message") = true
      · exact ⟨.typeError "argument after a double-star must be a mapping",
          by rw [if_pos hc]; simp [requestErrorFromKwargs]⟩
      · exact ⟨.runtimeError
          "Received a non-200 response code, but no `message` key was found in the response",
          by rw [if_neg hc]⟩
    | obj kvs =>
      simp only [pyLen, pyInOp]
      by_cases hc : kvs.length = 1 ∧ kvs.any (fun kv => kv.1 = "message") = true
      · exfalso
        obtain ⟨kv0, hkv⟩ := List.length_eq_one.1 hc.1
        have hany := hc.2
        rw [hkv] at hany
        simp only [List.any_cons, List.any_nil, Bool.or_false, decide_eq_true_eq] at hany
        refine hne kv0.2 ?_
        simp only
        rw [hkv]
        obtain ⟨k0, v0⟩ := kv0
        simp only at hany
        rw [hany]
      · exact ⟨.runtimeError
          "Received a non-200 response code, but no `message` key was found in the response",
          by rw [if_neg hc]⟩

/-- Claim C4 (witness), at a 404 reply with body keyed only by
`message`. -/
theorem error_response_iff_witness :
    400 ≤ (404 : Nat)
    ∧ after_request_handling (fun _ => (Except.ok () : Except String Unit)) (fun _ => true)
        (.response ⟨404, JValue.obj [("message", JValue.str "invalid apikey")]⟩)
      = .ok (.errorResp ⟨JValue.str "invalid apikey", none⟩) :=
  ⟨by decide,
    (error_response_iff_single_message_key (fun _ => Except.ok ()) (fun _ => true)
      ⟨404, JValue.obj [("message", JValue.str "invalid apikey")]⟩ (by decide)).1
      (JValue.str "invalid apikey") rfl⟩

/-- Pointwise-equal exclusion sets give equal bodies. -/
theorem compute_body_congr (r : PyRequest) (E C : List String)
    (h : ∀ k, k ∈ E ↔ k ∈ C) : compute_body r E = compute_body r C := by
  have key : ∀ (l : List (String × Option JValue)),
      l.filterMap (fun kv =>
        if kv.1 ∈ E then none
        else if kv.1 ∈ r.setFields then kv.2.map (fun v => (kv.1, v)) else none)
      = l.filterMap (fun kv =>
        if kv.1 ∈ C then none
        else if kv.1 ∈ r.setFields then kv.2.map (fun v => (kv.1, v)) else none) := by
    intro l
    induction l with
    | nil => rfl
    | cons a tl ih =>
      have hfa :
          (if a.1 ∈ E then none
            else if a.1 ∈ r.setFields then a.2.map (fun v => (a.1, v)) else none)
          = (if a.1 ∈ C then none
            else if a.1 ∈ r.setFields then a.2.map (fun v => (a.1, v)) else none) :=
        if_congr (h a.1) rfl rfl
      simp only [List.filterMap_cons, hfa, ih]
  simp only [compute_body, key r.fields]

/-- Claim C7: the body of a successfully marshalled request equals the
explicitly-set non-null remainder after removing every claimed name, and
an empty remainder yields an absent (not empty) body — the retroactive
extra-header registration adds nothing beyond the declared extra header
names. -/
theorem body_equals_unclaimed_remainder (regs : Registries) (r : PyRequest)
    (p : ParsedRequest)
    (h : validate_and_prepare_request regs r = .ok p) :
    p.request_body = body_per_claim regs r := by
  simp only [validate_and_prepare_request] at h
  cases hs : substitute_paths r r.endpointTemplate (get_specified_data_keys regs.path r) with
  | error e =>
    rw [hs] at h
    exact absurd h (by simp)
  | ok endpoint =>
    rw [hs] at h
    injection h with h'
    subst h'
    simp only [body_per_claim]
    apply compute_body_congr
    intro k
    have hb := fun hk =>
      classify_specHeaders_bound (get_specified_data_keys regs.path r)
        (get_specified_data_keys regs.query r) r.extraHeaderKeys r.fields
        ⟨get_specified_data_keys regs.header r, [], [], []⟩ k hk
    have hm := fun hk =>
      classify_specHeaders_mono (get_specified_data_keys regs.path r)
        (get_specified_data_keys regs.query r) r.extraHeaderKeys r.fields
        ⟨get_specified_data_keys regs.header r, [], [], []⟩ k hk
    simp only [List.mem_append]
    constructor <;> intro hk <;> tauto

/-- Claim C7 (witness), at the request exercising every bucket. -/
theorem body_equals_unclaimed_witness :
    validate_and_prepare_request fullRegs fullReq = .ok fullParsed
    ∧ fullParsed.request_body = body_per_claim fullRegs fullReq :=
  ⟨rfl, body_equals_unclaimed_remainder fullRegs fullReq fullParsed rfl⟩

/-- Claim C8: with the client and request state threaded explicitly, the
marshaller returns both unchanged (it writes only to function-local
dicts), and marshalling twice in sequence yields results equal in every
field of the parsed request. -/
theorem marshalling_pure_and_idempotent (regs : Registries) (r : PyRequest) :
    (validate_and_prepare_request_st (regs, r)).2 = (regs, r)
    ∧ (validate_and_prepare_request_st ((validate_and_prepare_request_st (regs, r)).2)).1
        = (validate_and_prepare_request_st (regs, r)).1
    ∧ ∀ p1 p2, (validate_and_prepare_request_st (regs, r)).1 = .ok p1 →
        (validate_and_prepare_request_st ((validate_and_prepare_request_st (regs, r)).2)).1
          = .ok p2 →
        p1.endpoint_no_query = p2.endpoint_no_query
        ∧ p1.request_headers = p2.request_headers
        ∧ p1.request_queries = p2.request_queries
        ∧ p1.request_params = p2.request_params
        ∧ p1.request_body = p2.request_body := by
  refine ⟨rfl, rfl, fun p1 p2 h1 h2 => ?_⟩
  have h2' : (validate_and_prepare_request_st (regs, r)).1 = .ok p2 := h2
  rw [h1] at h2'
  injection h2' with h'
  subst h'
  exact ⟨rfl, rfl, rfl, rfl, rfl⟩

/-- Claim C8 (witness), at the request exercising every bucket. -/
theorem marshalling_pure_witness :
    (validate_and_prepare_request_st (fullRegs, fullReq)).1 = .ok fullParsed
    ∧ (fullParsed.endpoint_no_query = fullParsed.endpoint_no_query
      ∧ fullParsed.request_headers = fullParsed.request_headers
      ∧ fullParsed.request_queries = fullParsed.request_queries
      ∧ fullParsed.request_params = fullParsed.request_params
      ∧ fullParsed.request_body = fullParsed.request_body) :=
  ⟨rfl, (marshalling_pure_and_idempotent fullRegs fullReq).2.2 fullParsed fullParsed rfl rfl⟩

end GenericHordeClient
